import Mathlib

/-!
Verification of the shared chat-demo engine of this repository.

Two front ends implement the engine:
* `src/examples/chat-simulator/app.js` (model suffix `A` / names from the source),
* `src/unnamed/part_001` (model suffix `B`).

Pure functions of the source are embedded as Lean functions; the
timer-based reply cycle is embedded by splitting each `async` function at
its `await` points into explicit state-passing steps, and the DOM message
list is embedded as an explicit list of display items.  JavaScript strings
are modelled as Lean `String`/`List Char` (the Thai texts of the source
are one UTF-16 unit per character, so code-unit and code-point indexing
agree on every string occurring here).
-/

/-- Message roles used by both demos (`'user'` / `'bot'`). -/
inductive Role where
  | user
  | bot
  deriving DecidableEq

/-- One element of the visual message list (`#chat` in app.js,
`#messages` in part_001): a rendered message row, or the typing-indicator
row produced by `appendTyping` / `createTypingEl`. -/
inductive ChatItem where
  | message (role : Role) (text : String)
  | typing
  deriving DecidableEq

/-- One turn of a `ScriptDefinition` (an element of the `scripts` table
of app.js). -/
structure Turn where
  role : Role
  text : String
  deriving DecidableEq

/-- One entry of `state.history` in app.js, pushed by `handleUserSend`
as `{ role: 'user', text, t: Date.now() }`. -/
structure HistEntry where
  role : Role
  text : String
  t : Nat
  deriving DecidableEq

/- ------------------------------------------------------------------
part_001 `escapeHtml`:
`text.replaceAll('&','&amp;').replaceAll('<','&lt;').replaceAll('>','&gt;')`
------------------------------------------------------------------ -/

/-- Tail of the entity `&amp;` after its ampersand. -/
def ampTail : List Char := ['a', 'm', 'p', ';']

/-- Tail of the entity `&lt;` after its ampersand. -/
def ltTail : List Char := ['l', 't', ';']

/-- Tail of the entity `&gt;` after its ampersand. -/
def gtTail : List Char := ['g', 't', ';']

/-- `String.prototype.replaceAll` for a single-character pattern `p`,
replacing every occurrence of `p` by `r`. -/
def replaceAllC : List Char → Char → List Char → List Char
  | [], _, _ => []
  | c :: t, p, r => (if c = p then r else [c]) ++ replaceAllC t p r

/-- part_001 `escapeHtml`, on character lists: the three `replaceAll`
passes of the source in source order (ampersand first). -/
def escapeHtmlL (s : List Char) : List Char :=
  replaceAllC (replaceAllC (replaceAllC s '&' ('&' :: ampTail)) '<' ('&' :: ltTail)) '>'
    ('&' :: gtTail)

/-- part_001 `escapeHtml` on strings. -/
def escapeHtml (s : String) : String := String.mk (escapeHtmlL s.data)

/-- Per-character effect of the composed three passes (proved equal to
`escapeHtmlL` below, validating the ampersand-first ordering). -/
def escChar (c : Char) : List Char :=
  if c = '&' then '&' :: ampTail
  else if c = '<' then '&' :: ltTail
  else if c = '>' then '&' :: gtTail
  else [c]

/-- `startsWith hay pat` holds when `pat` is an initial segment of `hay`. -/
def startsWith (hay pat : List Char) : Bool :=
  match pat, hay with
  | [], _ => true
  | _ :: _, [] => false
  | p :: ps, c :: cs => if c = p then startsWith cs ps else false

/-- Checks that every ampersand of a character list begins one of the
three entities `&amp;` `&lt;` `&gt;` — i.e. no raw ampersand remains. -/
def ampEscaped : List Char → Bool
  | [] => true
  | c :: rest =>
    (if c = '&' then
      startsWith rest ampTail || startsWith rest ltTail || startsWith rest gtTail
    else true) && ampEscaped rest

lemma replaceAllC_append (p : Char) (r : List Char) (a b : List Char) :
    replaceAllC (a ++ b) p r = replaceAllC a p r ++ replaceAllC b p r := by
  induction a with
  | nil => simp [replaceAllC]
  | cons c t ih => simp [replaceAllC, ih]

lemma escapeHtmlL_cons (c : Char) (t : List Char) :
    escapeHtmlL (c :: t) = escChar c ++ escapeHtmlL t := by
  by_cases h1 : c = '&'
  · subst h1
    simp [escapeHtmlL, replaceAllC, replaceAllC_append, escChar, ampTail, ltTail, gtTail]
  · by_cases h2 : c = '<'
    · subst h2
      simp [escapeHtmlL, replaceAllC, replaceAllC_append, escChar, ampTail, ltTail, gtTail, h1]
    · by_cases h3 : c = '>'
      · subst h3
        simp [escapeHtmlL, replaceAllC, replaceAllC_append, escChar, ampTail, ltTail, gtTail,
          h1, h2]
      · simp [escapeHtmlL, replaceAllC, replaceAllC_append, escChar, h1, h2, h3]

lemma lt_not_mem_escChar (c : Char) : ('<' : Char) ∉ escChar c := by
  by_cases h1 : c = '&'
  · subst h1; decide
  · by_cases h2 : c = '<'
    · subst h2; decide
    · by_cases h3 : c = '>'
      · subst h3; decide
      · simp [escChar, h1, h2, h3]
        intro h; exact h2 h.symm

lemma gt_not_mem_escChar (c : Char) : ('>' : Char) ∉ escChar c := by
  by_cases h1 : c = '&'
  · subst h1; decide
  · by_cases h2 : c = '<'
    · subst h2; decide
    · by_cases h3 : c = '>'
      · subst h3; decide
      · simp [escChar, h1, h2, h3]
        intro h; exact h3 h.symm

lemma lt_not_mem_escapeHtmlL (s : List Char) : ('<' : Char) ∉ escapeHtmlL s := by
  induction s with
  | nil => simp [escapeHtmlL, replaceAllC]
  | cons c t ih =>
    rw [escapeHtmlL_cons]
    intro h
    rcases List.mem_append.mp h with h | h
    · exact lt_not_mem_escChar c h
    · exact ih h

lemma gt_not_mem_escapeHtmlL (s : List Char) : ('>' : Char) ∉ escapeHtmlL s := by
  induction s with
  | nil => simp [escapeHtmlL, replaceAllC]
  | cons c t ih =>
    rw [escapeHtmlL_cons]
    intro h
    rcases List.mem_append.mp h with h | h
    · exact gt_not_mem_escChar c h
    · exact ih h

lemma startsWith_append_self (pre post : List Char) :
    startsWith (pre ++ post) pre = true := by
  induction pre with
  | nil => simp [startsWith]
  | cons p ps ih => simp [startsWith, ih]

lemma ampEscaped_escChar_append (c : Char) (rest : List Char) (h : ampEscaped rest = true) :
    ampEscaped (escChar c ++ rest) = true := by
  by_cases h1 : c = '&'
  · subst h1
    show ampEscaped ('&' :: 'a' :: 'm' :: 'p' :: ';' :: rest) = true
    simp [ampEscaped, ampTail, startsWith, h, startsWith_append_self]
  · by_cases h2 : c = '<'
    · subst h2
      show ampEscaped ('&' :: 'l' :: 't' :: ';' :: rest) = true
      simp [ampEscaped, ltTail, startsWith, h, startsWith_append_self]
    · by_cases h3 : c = '>'
      · subst h3
        show ampEscaped ('&' :: 'g' :: 't' :: ';' :: rest) = true
        simp [ampEscaped, gtTail, startsWith, h, startsWith_append_self]
      · have hc : escChar c = [c] := by simp [escChar, h1, h2, h3]
        rw [hc, List.singleton_append]
        simp [ampEscaped, h1, h]

lemma ampEscaped_escapeHtmlL (s : List Char) : ampEscaped (escapeHtmlL s) = true := by
  induction s with
  | nil => rfl
  | cons c t ih =>
    rw [escapeHtmlL_cons]
    exact ampEscaped_escChar_append c (escapeHtmlL t) ih

/- ------------------------------------------------------------------
app.js DOM construction: `el` builds an element; non-node children are
inserted with `document.createTextNode(String(child))`; `null` children
are skipped.
------------------------------------------------------------------ -/

/-- A DOM node: an element with tag, attributes and children, or a text
node (whose content the browser never parses as markup). -/
inductive DomNode where
  | elem (tag : String) (attrs : List (String × String)) (children : List DomNode)
  | textNode (s : String)

/-- A child argument passed to `el`: an existing node or a string. -/
inductive ElChild where
  | node (n : DomNode)
  | str (s : String)

/-- app.js `el(tag, attrs, children)`: strings become text nodes
(`child.nodeType ? child : document.createTextNode(String(child))`),
`null` children are skipped (`if (child == null) return`). -/
def el (tag : String) (attrs : List (String × String)) (children : List (Option ElChild)) :
    DomNode :=
  DomNode.elem tag attrs (children.filterMap (fun c =>
    match c with
    | none => none
    | some (ElChild.node n) => some n
    | some (ElChild.str s) => some (DomNode.textNode s)))

/-- The message row built by app.js `appendMessage` (structure of the
`el` calls of the source; the row is appended to `#chat`). -/
def appendMessageNode (role : Role) (text time : String) : DomNode :=
  el "div" [("class", String.append "message " (if role = Role.user then "user" else "bot"))]
    [some (ElChild.node (el "div" [("class", "avatar"), ("aria-hidden", "true")]
      [some (ElChild.str (if role = Role.user then "🙂" else "🤖"))])),
     some (ElChild.node (el "div" [("class", "content")]
       [some (ElChild.node (el "div" [("class", "bubble")] [some (ElChild.str text)])),
        some (ElChild.node (el "div" [("class", "meta")]
          [some (ElChild.str (String.append
            (String.append (if role = Role.user then "คุณ" else "บอท") " • ") time))]))]))]

/-- Children of the `.bubble` element inside a message row. -/
def bubbleChildren (n : DomNode) : List DomNode :=
  match n with
  | DomNode.elem _ _ [_, DomNode.elem _ _ (DomNode.elem _ _ kids :: _)] => kids
  | _ => []

/-- Template text of part_001 `createMessageEl` before the escaped
message content (markup of the source template; inter-tag whitespace
elided). -/
def msgTemplateA (role : Role) : String :=
  String.append (String.append "<div class=\"avatar\">"
    (if role = Role.user then "👤" else "🤖")) "</div><div><div class=\"bubble\">"

/-- Template text of part_001 `createMessageEl` after the escaped
message content. -/
def msgTemplateB (role : Role) (time : String) : String :=
  String.append (String.append (String.append (String.append "</div><div class=\"meta\">"
    (if role = Role.user then "คุณ" else "แชทบอท")) " · ") time) "</div></div>"

/-- The `innerHTML` markup assigned by part_001 `createMessageEl`: the
message content enters it only through `escapeHtml`. -/
def createMessageHtml (role : Role) (content : String) (time : String) : String :=
  String.append (String.append (msgTemplateA role) (escapeHtml content)) (msgTemplateB role time)

lemma data_append (a b : String) : (String.append a b).data = a.data ++ b.data := by
  cases a; cases b; rfl

/-- Claim C1: rendering never emits `&`, `<` or `>` of the message text
unescaped into the produced markup.  In part_001 the content reaches the
`innerHTML` markup only through `escapeHtml`, whose output contains no
raw `<`, no raw `>`, and whose every `&` begins one of the entities
`&amp;`/`&lt;`/`&gt;`; in app.js `appendMessage` stores the text as a DOM
text node, which the browser never parses as markup. -/
theorem render_escapes_markup (s : List Char) (role : Role) (content text time : String) :
    ('<' : Char) ∉ escapeHtmlL s ∧
    ('>' : Char) ∉ escapeHtmlL s ∧
    ampEscaped (escapeHtmlL s) = true ∧
    (createMessageHtml role content time).data =
      (msgTemplateA role).data ++ escapeHtmlL content.data ++ (msgTemplateB role time).data ∧
    bubbleChildren (appendMessageNode role text time) = [DomNode.textNode text] := by
  refine ⟨lt_not_mem_escapeHtmlL s, gt_not_mem_escapeHtmlL s, ampEscaped_escapeHtmlL s, ?_, ?_⟩
  · simp [createMessageHtml, data_append, escapeHtml]
  · rfl

/- ------------------------------------------------------------------
app.js engine state and operations.  The timer delay of `botReply` is
its sole suspension point; `botReplyStartA` is the synchronous part up
to the `await` (guard, flag, typing indicator), `botReplyFinishA` the
part after it (indicator removal, message, flag reset), `botReplyFullA`
an awaited complete cycle as in the script-playback loop.
------------------------------------------------------------------ -/

/-- app.js `botReply` delay: `Math.min(2000, Math.max(600, text.length * 40))`
for a reply of length `len`. -/
def typingDelay (len : Nat) : Nat := min 2000 (max 600 (len * 40))

/-- JS whitespace characters of the inputs occurring here. -/
def isJsSpace (c : Char) : Bool := c = ' ' || c = '\t' || c = '\n' || c = '\r'

/-- `String.prototype.trim`. -/
def jsTrim (s : String) : String :=
  String.mk (((s.data.dropWhile isJsSpace).reverse.dropWhile isJsSpace).reverse)

/-- `String.prototype.toLowerCase` (identity on the Thai keywords of the
source, ASCII letters mapped to lower case). -/
def jsToLower (s : String) : String := String.mk (s.data.map Char.toLower)

/-- `String.prototype.includes` on character lists. -/
def containsSeq : List Char → List Char → Bool
  | [], pat => pat.isEmpty
  | c :: t, pat => startsWith (c :: t) pat || containsSeq t pat

/-- `lower.includes(sub)` of `handleUserSend`. -/
def jsIncludes (s sub : String) : Bool := containsSeq s.data sub.data

/-- app.js session state: `state` (theme, history, isBotTyping) together
with the `#chat` display list, the pending reply text of a composing
cycle, and the key-value store (modelled as available; the
unavailable-store behavior is treated separately below). -/
structure AppState where
  theme : String
  history : List HistEntry
  isBotTyping : Bool
  pending : Option String
  chat : List ChatItem
  store : List (String × String)
  deriving DecidableEq

/-- Key-value store update (`localStorage.setItem`). -/
def storeSet (kvs : List (String × String)) (k v : String) : List (String × String) :=
  (k, v) :: kvs.filter (fun e => !(e.1 == k))

/-- app.js `applyTheme`: set `state.theme` and persist it. -/
def applyThemeS (theme : String) (s : AppState) : AppState :=
  { s with theme := theme, store := storeSet s.store "theme" theme }

/-- app.js `toggleTheme`. -/
def toggleThemeS (s : AppState) : AppState :=
  applyThemeS (if s.theme = "dark" then "light" else "dark") s

/-- app.js `appendMessage`: append a rendered message row to `#chat`. -/
def appendMessageS (role : Role) (text : String) (s : AppState) : AppState :=
  { s with chat := s.chat ++ [ChatItem.message role text] }

/-- app.js `botReply`, up to its `await`: the `isBotTyping` guard, then
flag set and typing indicator appended; the reply text is recorded as
the pending message of the cycle. -/
def botReplyStartA (text : String) (s : AppState) : AppState :=
  if s.isBotTyping then s
  else { s with isBotTyping := true, pending := some text, chat := s.chat ++ [ChatItem.typing] }

def removeFirstTyping : List ChatItem → List ChatItem
  | [] => []
  | ChatItem.typing :: t => t
  | c :: t => c :: removeFirstTyping t

/-- `typingEl.remove()`: the removed node is the most recently appended
typing row. -/
def removeLastTyping (l : List ChatItem) : List ChatItem :=
  (removeFirstTyping l.reverse).reverse

/-- app.js `botReply`, after its `await`: remove the typing indicator,
append the bot message, clear the flag. -/
def botReplyFinishA (s : AppState) : AppState :=
  match s.pending with
  | none => s
  | some txt =>
    { s with
      isBotTyping := false,
      pending := none,
      chat := removeLastTyping s.chat ++ [ChatItem.message Role.bot txt] }

/-- An awaited complete `botReply(text)` cycle, as performed for each bot
turn of the script-playback loop. -/
def botReplyFullA (text : String) (s : AppState) : AppState :=
  if s.isBotTyping then s else botReplyFinishA (botReplyStartA text s)

/-- `scripts.intro` of app.js. -/
def introScript : List Turn :=
  [Turn.mk Role.bot "สวัสดีค่ะ! ฉันคือแชทบอท ช่วยอะไรคุณได้บ้างคะ?",
   Turn.mk Role.user "อยากรู้ว่าฟีเจอร์มีอะไรบ้าง",
   Turn.mk Role.bot "เรามีการตอบอัตโนมัติ โหมดสว่าง/มืด และการพิมพ์แบบสมจริงค่ะ"]

/-- `scripts.faq` of app.js. -/
def faqScript : List Turn :=
  [Turn.mk Role.user "ขอช่วยตอบคำถามที่พบบ่อย",
   Turn.mk Role.bot "แน่นอนค่ะ! 1) เวลาทำการ 9:00-18:00 น. จ.-ศ. 2) ติดต่อทีมงานได้ทางอีเมล support@example.com"]

/-- `scripts.handoff` of app.js. -/
def handoffScript : List Turn :=
  [Turn.mk Role.user "อยากคุยกับเจ้าหน้าที่ค่ะ",
   Turn.mk Role.bot "ได้เลยค่ะ กำลังโอนให้เจ้าหน้าที่ โปรดรอสักครู่..."]

/-- The script button handler look-up `scripts[key] || []`. -/
def scriptsFor (key : String) : List Turn :=
  if key = "intro" then introScript
  else if key = "faq" then faqScript
  else if key = "handoff" then handoffScript
  else []

/-- The script button handler loop of `wireEvents`: user turns append
immediately, bot turns run an awaited `botReply` cycle. -/
def playScriptA : List Turn → AppState → AppState
  | [], s => s
  | Turn.mk Role.user t :: rest, s => playScriptA rest (appendMessageS Role.user t s)
  | Turn.mk Role.bot t :: rest, s => playScriptA rest (botReplyFullA t s)

/-- The successive `#chat` contents during playback started from a
non-composing state: a user turn appends its row; a bot turn appends the
typing row, removes it, then appends the bot row. -/
def playTraceA : List Turn → List ChatItem → List (List ChatItem)
  | [], _ => []
  | Turn.mk Role.user t :: rest, c =>
    (c ++ [ChatItem.message Role.user t]) ::
      playTraceA rest (c ++ [ChatItem.message Role.user t])
  | Turn.mk Role.bot t :: rest, c =>
    (c ++ [ChatItem.typing]) :: c :: (c ++ [ChatItem.message Role.bot t]) ::
      playTraceA rest (c ++ [ChatItem.message Role.bot t])

def isMsg : ChatItem → Bool
  | ChatItem.message _ _ => true
  | ChatItem.typing => false

/-- The message rows of a display list (typing indicators dropped). -/
def msgsOf (l : List ChatItem) : List ChatItem := l.filter isMsg

/-- The most recent visual element of a display list. -/
def lastItem (l : List ChatItem) : Option ChatItem := l.reverse.head?

def endsTyping (l : List ChatItem) : Bool :=
  match lastItem l with
  | some ChatItem.typing => true
  | _ => false

def lastMsg (l : List ChatItem) : Option ChatItem := lastItem (msgsOf l)

def isBotMsg : Option ChatItem → Bool
  | some (ChatItem.message Role.bot _) => true
  | _ => false

/-- Trace check: walking the successive display contents, whenever the
message rows change and the newest message is a bot message, there was a
moment since the previous message change at which a typing indicator was
the most recent visual element. -/
def botMsgGuarded : Bool → List ChatItem → List (List ChatItem) → Bool
  | _, _, [] => true
  | seen, prev, cur :: rest =>
    if msgsOf cur = msgsOf prev then
      botMsgGuarded (seen || endsTyping cur) cur rest
    else if isBotMsg (lastMsg cur) then
      seen && botMsgGuarded false cur rest
    else
      botMsgGuarded false cur rest

/-- Fixed pricing reply of `handleUserSend`. -/
def pricingReply : String := "แพ็กเกจเริ่มต้นที่ 299 บาท/เดือน และมีเวอร์ชันทดลองใช้งานฟรีค่ะ"

/-- Fixed help reply of `handleUserSend`. -/
def helpReply : String := "ฉันช่วยตอบคำถาม แนะนำการใช้งาน และส่งต่อให้ทีมงานได้ค่ะ"

/-- Fixed theme-toggle reply of `handleUserSend`. -/
def themeReply : String := "สลับธีมให้แล้วค่ะ ✨"

/-- The `fallbacks` pool of `handleUserSend`. -/
def fallbackPool : List String :=
  ["รับทราบค่ะ มีรายละเอียดเพิ่มเติมไหมคะ?",
   "ขอข้อมูลเพิ่มอีกนิด เพื่อช่วยคุณได้ดีกว่านี้ค่ะ",
   "โอเคค่ะ เดี๋ยวช่วยค้นหาคำตอบให้นะคะ"]

/-- app.js `handleUserSend(raw)` together with the synchronous part of
the `botReply` call it makes; `pick` models `Math.floor(Math.random() *
fallbacks.length)` and `now` models `Date.now()`. -/
def handleUserSend (raw : String) (pick now : Nat) (s : AppState) : AppState :=
  let text := jsTrim raw
  if text = "" then s
  else
    let s1 := { s with
      chat := s.chat ++ [ChatItem.message Role.user text],
      history := s.history ++ [HistEntry.mk Role.user text now] }
    let lower := jsToLower text
    if jsIncludes lower "ราคา" || jsIncludes lower "เท่าไหร่" then
      botReplyStartA pricingReply s1
    else if jsIncludes lower "ช่วย" || jsIncludes lower "อย่างไร" then
      botReplyStartA helpReply s1
    else if jsIncludes lower "มืด" || jsIncludes lower "สว่าง" then
      botReplyStartA themeReply (toggleThemeS s1)
    else
      botReplyStartA (fallbackPool.getD (pick % 3) "") s1

/-- Greeting of app.js `init`. -/
def welcomeA : String := "สวัสดีค่ะ! เริ่มคุยกับฉันได้เลย 👋"

/-- State after app.js `init` on a fresh store (`getItem` absent, so the
boot theme defaults to `'dark'`, which `applyTheme` persists; then the
greeting is appended). -/
def initA : AppState :=
  { theme := "dark", history := [], isBotTyping := false, pending := none,
    chat := [ChatItem.message Role.bot welcomeA], store := [("theme", "dark")] }

/-- User-interface events of app.js wired by `wireEvents`: a composer
submit, a `botReply` timer completion, the theme toggle, a script
button. -/
inductive AEvent where
  | send (raw : String) (pick now : Nat)
  | finish
  | themeToggle
  | script (key : String)

def stepA (s : AppState) : AEvent → AppState
  | AEvent.send raw pick now => handleUserSend raw pick now s
  | AEvent.finish => botReplyFinishA s
  | AEvent.themeToggle => toggleThemeS s
  | AEvent.script key => playScriptA (scriptsFor key) s

def runA (s : AppState) : List AEvent → AppState
  | [] => s
  | e :: rest => runA (stepA s e) rest

/- ------------------------------------------------------------------
part_001 engine state and operations, and the key-value store with an
explicit availability mode: `none` models an unavailable `localStorage`
whose every access throws; `some kvs` an available one.
------------------------------------------------------------------ -/

/-- A key-value store that is either unavailable or holds bindings. -/
def StoreState := Option (List (String × String))

/-- Store lookup by key (first binding wins). -/
def storeGet (kvs : List (String × String)) (k : String) : Option String :=
  (kvs.find? (fun e => e.1 == k)).map (fun e => e.2)

/-- `localStorage.getItem`: throws when the store is unavailable. -/
def getItemE (st : StoreState) (k : String) : Except Unit (Option String) :=
  match st with
  | none => Except.error ()
  | some kvs => Except.ok (storeGet kvs k)

/-- `localStorage.setItem`: throws when the store is unavailable. -/
def setItemE (st : StoreState) (k v : String) : Except Unit StoreState :=
  match st with
  | none => Except.error ()
  | some kvs => Except.ok (some (storeSet kvs k v))

/-- A `try { localStorage.setItem(k, v) } catch {}` block: failures are
swallowed, leaving the store as it was. -/
def trySet (st : StoreState) (k v : String) : StoreState :=
  match setItemE st k v with
  | Except.error _ => st
  | Except.ok st2 => st2

/-- The JS `x || d` default for a string read (both a missing value and
the empty string are falsy). -/
def jsOrStr (o : Option String) (d : String) : String :=
  match o with
  | none => d
  | some s => if s = "" then d else s

/-- part_001 session state: `state` (preset, theme, messages) together
with the `#messages` display list. -/
structure BState where
  preset : String
  theme : String
  messages : List ChatItem
  display : List ChatItem
  deriving DecidableEq

/-- The `state` literal of part_001 before `boot` runs. -/
def initB : BState :=
  { preset := "friendly", theme := "dark", messages := [], display := [] }

/-- `PRESET_BEHAVIORS.friendly` of part_001. -/
def friendlyBehavior (text : String) : String :=
  String.append (String.append "ได้เลยครับ 😊  " text)
    "\nนี่คือคำตอบแบบเป็นกันเองและช่วยเหลือกันสุดๆ!"

/-- `PRESET_BEHAVIORS.professional` of part_001. -/
def professionalBehavior (text : String) : String :=
  String.append (String.append "รับทราบครับ ผมจะช่วยอธิบายอย่างเป็นขั้นตอน:\n- ประเด็น: " text)
    "\n- ทางเลือก: A/B\n- คำแนะนำ: เลือกที่สอดคล้องกับเป้าหมาย"

/-- `PRESET_BEHAVIORS.concise` of part_001. -/
def conciseBehavior (text : String) : String :=
  String.append text " -> สรุป: ใช้ทางเลือกที่ง่ายและชัดเจนที่สุด"

/-- `PRESET_BEHAVIORS.helper` of part_001. -/
def helperBehavior (text : String) : String :=
  String.append (String.append "ถ้าคุณสนใจสินค้าเกี่ยวกับ \"" text)
    "\" ผมแนะนำรุ่น Pro ช่วยประหยัดเวลาและใช้งานง่ายกว่าเดิมครับ"

/-- `PRESET_BEHAVIORS[p]` as an optional look-up. -/
def presetLookup (p : String) : Option (String → String) :=
  if p = "friendly" then some friendlyBehavior
  else if p = "professional" then some professionalBehavior
  else if p = "concise" then some conciseBehavior
  else if p = "helper" then some helperBehavior
  else none

/-- `PRESET_BEHAVIORS[state.preset] || PRESET_BEHAVIORS.friendly` of
`simulateBotReply`. -/
def behaviorFor (p : String) : String → String :=
  match presetLookup p with
  | some f => f
  | none => friendlyBehavior

/-- part_001 `setTheme(theme)`: normalize to light/dark, update
in-memory state, persist inside `try { } catch {}`. -/
def setThemeB (theme : String) (s : BState) (st : StoreState) : BState × StoreState :=
  let th := if theme = "light" then "light" else "dark"
  ({ s with theme := th }, trySet st "chat_theme" th)

/-- part_001 `setPreset(preset)`: update in-memory state, persist inside
`try { } catch {}`. -/
def setPresetB (preset : String) (s : BState) (st : StoreState) : BState × StoreState :=
  ({ s with preset := preset }, trySet st "chat_preset" preset)

/-- part_001 `resetChat`: clear the message history and the displayed
list. -/
def resetChatB (s : BState) : BState :=
  { s with messages := [], display := [] }

/-- The `#newChatBtn` click handler of `initEvents`: it calls only
`resetChat`, touching no store. -/
def resetClick (p : BState × StoreState) : BState × StoreState :=
  (resetChatB p.1, p.2)

/-- part_001 composer submit handler together with the synchronous part
of `simulateBotReply` (which appends the typing row unconditionally — it
has no composing guard). Empty trimmed input returns early. -/
def submitB (raw : String) (s : BState) : BState :=
  let text := jsTrim raw
  if text = "" then s
  else { s with display := s.display ++ [ChatItem.message Role.user text, ChatItem.typing] }

/-- part_001 `simulateBotReply` after its delay: the preset behavior is
read at completion time and the typing row of the cycle is replaced in
place by the bot message (`typing.replaceWith(...)`). -/
def replaceFirstTyping : List ChatItem → ChatItem → List ChatItem
  | [], _ => []
  | ChatItem.typing :: t, m => m :: t
  | c :: t, m => c :: replaceFirstTyping t m

def finishB (userText : String) (s : BState) : BState :=
  let reply := ChatItem.message Role.bot (behaviorFor s.preset userText)
  { s with display := replaceFirstTyping s.display reply }

/-- The `try { savedTheme = ... } catch {}` block of part_001 `boot`:
read both persisted values, defaulting to `'dark'`/`'friendly'`; if the
store throws, whatever was assigned before the throw is kept. -/
def bootLoad (st : StoreState) : String × String :=
  match getItemE st "chat_theme" with
  | Except.error _ => ("dark", "friendly")
  | Except.ok t =>
    match getItemE st "chat_preset" with
    | Except.error _ => (jsOrStr t "dark", "friendly")
    | Except.ok p => (jsOrStr t "dark", jsOrStr p "friendly")

/-- Greeting of part_001 `boot`. -/
def welcomeB : String :=
  "สวัสดีครับ ยินดีต้อนรับสู่หน้าเว็บจำลองการสนทนา! ลองพิมพ์ข้อความเพื่อเริ่มต้นได้เลย 🎉"

/-- part_001 `boot`: restore theme and preset through `setTheme` /
`setPreset`, then append the greeting message to the display. -/
def bootB (st : StoreState) : BState × StoreState :=
  let tp := bootLoad st
  let p1 := setThemeB tp.1 initB st
  let p2 := setPresetB tp.2 p1.1 p1.2
  ({ p2.1 with display := p2.1.display ++ [ChatItem.message Role.bot welcomeB] }, p2.2)

/-- User-interface events of part_001 wired by `initEvents`: a composer
submit, a `simulateBotReply` timer completion, the theme switch, a
preset button, the new-chat button. -/
inductive BEvent where
  | submit (raw : String)
  | finish (userText : String)
  | themeSet (light : Bool)
  | presetClick (p : String)
  | reset

def stepB (p : BState × StoreState) : BEvent → BState × StoreState
  | BEvent.submit raw => (submitB raw p.1, p.2)
  | BEvent.finish t => (finishB t p.1, p.2)
  | BEvent.themeSet light => setThemeB (if light then "light" else "dark") p.1 p.2
  | BEvent.presetClick pr => setPresetB pr p.1 p.2
  | BEvent.reset => resetClick p

def runB (p : BState × StoreState) : List BEvent → BState × StoreState
  | [] => p
  | e :: rest => runB (stepB p e) rest

/- ------------------------------------------------------------------
app.js storage access, which — unlike part_001 — performs no
`try { } catch {}`: the boot read `localStorage.getItem('theme') || 'dark'`
and the persist `localStorage.setItem('theme', theme)` of `applyTheme`
propagate a storage failure.
------------------------------------------------------------------ -/

/-- The app.js boot read `localStorage.getItem('theme') || 'dark'`
(line 5 of app.js, no try/catch). -/
def initThemeApp (st : StoreState) : Except Unit String :=
  match getItemE st "theme" with
  | Except.error e => Except.error e
  | Except.ok v => Except.ok (jsOrStr v "dark")

/-- The persist step of app.js `applyTheme`:
`localStorage.setItem('theme', theme)` with no try/catch. -/
def applyThemeApp (theme : String) (st : StoreState) : Except Unit StoreState :=
  setItemE st "theme" theme

/-- Number of typing-indicator rows in a display list. -/
def countTyping (l : List ChatItem) : Nat := (l.filter (fun i => !isMsg i)).length

/- ------------------------------------------------------------------
Projection lemmas for the app.js operations.
------------------------------------------------------------------ -/

lemma botReplyStartA_chat (text : String) (s : AppState) :
    (botReplyStartA text s).chat =
      s.chat ++ (if s.isBotTyping then [] else [ChatItem.typing]) := by
  by_cases h : s.isBotTyping <;> simp [botReplyStartA, h]

lemma botReplyStartA_history (text : String) (s : AppState) :
    (botReplyStartA text s).history = s.history := by
  by_cases h : s.isBotTyping <;> simp [botReplyStartA, h]

lemma botReplyStartA_isBotTyping (text : String) (s : AppState) :
    (botReplyStartA text s).isBotTyping = true := by
  by_cases h : s.isBotTyping <;> simp [botReplyStartA, h]

lemma botReplyStartA_pending (text : String) (s : AppState) (h : s.isBotTyping = false) :
    (botReplyStartA text s).pending = some text := by
  simp [botReplyStartA, h]

lemma botReplyStartA_theme (text : String) (s : AppState) :
    (botReplyStartA text s).theme = s.theme := by
  by_cases h : s.isBotTyping <;> simp [botReplyStartA, h]

lemma toggleThemeS_chat (s : AppState) : (toggleThemeS s).chat = s.chat := rfl

lemma toggleThemeS_history (s : AppState) : (toggleThemeS s).history = s.history := rfl

lemma toggleThemeS_isBotTyping (s : AppState) : (toggleThemeS s).isBotTyping = s.isBotTyping :=
  rfl

lemma botReplyFinishA_history (s : AppState) : (botReplyFinishA s).history = s.history := by
  cases hp : s.pending <;> simp [botReplyFinishA, hp]

/-- Claim C3: the delay before a bot message of length `L` appears is
`Math.min(2000, Math.max(600, L*40))`, which equals the spec's
`max(600, min(2000, 40*L))` and always lies in `[600, 2000]`. -/
theorem typing_delay_clamp (L : Nat) :
    typingDelay L = max 600 (min 2000 (40 * L)) ∧
    600 ≤ typingDelay L ∧ typingDelay L ≤ 2000 := by
  unfold typingDelay
  omega

/-- Claim C9: part_001 `resetChat` empties the message history and the
displayed list, and leaves the theme, the preset and the key-value store
untouched (the new-chat handler performs no store access). -/
theorem reset_chat_frame (s : BState) (st : StoreState) :
    (resetChatB s).messages = [] ∧
    (resetChatB s).display = [] ∧
    (resetChatB s).theme = s.theme ∧
    (resetChatB s).preset = s.preset ∧
    (resetClick (s, st)).2 = st ∧
    (resetClick (s, st)).1 = resetChatB s :=
  ⟨rfl, rfl, rfl, rfl, rfl, rfl⟩

/-- Claim C7 (amended): part_001 swallows storage failures — `boot`
defaults to `'dark'`/`'friendly'` when the store is unavailable or the
values are absent, and `setTheme`/`setPreset` are total, updating the
in-memory state even when the store is unavailable.  In app.js, the boot
read defaults to `'dark'` when the value is absent, but neither that read
nor the persist of `applyTheme` is guarded, so an unavailable store makes
them propagate the storage error (see the counterexample). -/
theorem store_failure_policy (th pr : String) (s : BState) :
    bootLoad none = ("dark", "friendly") ∧
    bootLoad (some []) = ("dark", "friendly") ∧
    (setThemeB th s none).1.theme = (if th = "light" then "light" else "dark") ∧
    (setThemeB th s none).2 = none ∧
    (setPresetB pr s none).1.preset = pr ∧
    (setPresetB pr s none).2 = none ∧
    initThemeApp (some []) = Except.ok "dark" :=
  ⟨rfl, rfl, rfl, rfl, rfl, rfl, rfl⟩

/-- Counterexample to claim C7 as stated: in app.js an unavailable store
makes the `applyTheme` persist and the boot read throw — the storage
error escapes to the caller instead of being swallowed. -/
theorem appjs_store_error_escapes :
    applyThemeApp "light" none = Except.error () ∧
    initThemeApp none = Except.error () :=
  ⟨rfl, rfl⟩

/-- Claim C8: an unknown script identifier maps to the empty script
(`scripts[key] || []`), whose playback appends nothing and changes
nothing; an unknown preset identifier falls back to the `friendly`
behavior (`PRESET_BEHAVIORS[p] || PRESET_BEHAVIORS.friendly`).  Neither
raises an error. -/
theorem unknown_ids_fall_back (key p text : String) (s : AppState)
    (hk1 : key ≠ "intro") (hk2 : key ≠ "faq") (hk3 : key ≠ "handoff")
    (hp1 : p ≠ "friendly") (hp2 : p ≠ "professional") (hp3 : p ≠ "concise")
    (hp4 : p ≠ "helper") :
    scriptsFor key = [] ∧
    playScriptA (scriptsFor key) s = s ∧
    behaviorFor p text = friendlyBehavior text := by
  have hs : scriptsFor key = [] := by simp [scriptsFor, hk1, hk2, hk3]
  refine ⟨hs, ?_, ?_⟩
  · rw [hs]; rfl
  · simp [behaviorFor, presetLookup, hp1, hp2, hp3, hp4]

/-- Witness for C8 at a concrete unknown script key and preset id. -/
theorem unknown_ids_fall_back_witness :
    scriptsFor "demo" = [] ∧
    playScriptA (scriptsFor "demo") initA = initA ∧
    behaviorFor "casual" "x" = friendlyBehavior "x" :=
  unknown_ids_fall_back "demo" "casual" "x" initA (by decide) (by decide) (by decide)
    (by decide) (by decide) (by decide) (by decide)

/-- Claim C2 (amended): in app.js, `botReply` called while
`isBotTyping` is a no-op — no typing indicator, no bot message, state
unchanged — so at most one composing indicator is visible there.  In
part_001, `simulateBotReply` has no such guard: every non-empty submit
appends a typing indicator unconditionally, so a submit during a
composing cycle shows a second indicator (see the counterexample). -/
theorem composing_guard (text : String) (s : AppState) (raw : String) (sB : BState)
    (hs : s.isBotTyping = true) (hraw : jsTrim raw ≠ "") :
    botReplyStartA text s = s ∧
    botReplyFullA text s = s ∧
    (submitB raw sB).display =
      sB.display ++ [ChatItem.message Role.user (jsTrim raw), ChatItem.typing] := by
  refine ⟨?_, ?_, ?_⟩
  · simp [botReplyStartA, hs]
  · simp [botReplyFullA, hs]
  · simp [submitB, hraw]

/-- Witness for C2 (amended) at a concrete composing app.js state and a
concrete part_001 submit. -/
theorem composing_guard_witness :
    botReplyStartA "ก" (botReplyStartA "ข" initA) = botReplyStartA "ข" initA ∧
    botReplyFullA "ก" (botReplyStartA "ข" initA) = botReplyStartA "ข" initA ∧
    (submitB "สวัสดี" initB).display =
      initB.display ++ [ChatItem.message Role.user (jsTrim "สวัสดี"), ChatItem.typing] :=
  composing_guard "ก" (botReplyStartA "ข" initA) "สวัสดี" initB (by decide) (by decide)

/-- Counterexample to claim C2 as stated: in part_001, two submits with
no intervening reply completion leave two typing indicators visible at
once — reachable from the booted state. -/
theorem part001_two_typing_indicators :
    countTyping ((submitB "ครับ" (submitB "สวัสดี" (bootB none).1)).display) = 2 := by
  decide

lemma handleUserSend_empty (raw : String) (pick now : Nat) (s : AppState)
    (hE : jsTrim raw = "") : handleUserSend raw pick now s = s := by
  simp [handleUserSend, hE]

lemma handleUserSend_nonempty (raw : String) (pick now : Nat) (s : AppState)
    (hN : jsTrim raw ≠ "") :
    (handleUserSend raw pick now s).history =
      s.history ++ [HistEntry.mk Role.user (jsTrim raw) now] ∧
    (handleUserSend raw pick now s).chat =
      s.chat ++ ChatItem.message Role.user (jsTrim raw) ::
        (if s.isBotTyping then [] else [ChatItem.typing]) ∧
    (handleUserSend raw pick now s).isBotTyping = true := by
  simp only [handleUserSend, if_neg hN]
  split_ifs <;>
    simp_all [botReplyStartA_history, botReplyStartA_chat, botReplyStartA_isBotTyping,
      toggleThemeS_history, toggleThemeS_chat, toggleThemeS_isBotTyping]

lemma submitB_empty (raw : String) (sB : BState) (hE : jsTrim raw = "") :
    submitB raw sB = sB := by
  simp [submitB, hE]

/-- Claim C5 (amended): a submit whose trimmed text is empty is ignored
by both demos — no message, no reply cycle, state unchanged.  A submit
with non-empty trimmed text appends exactly one user message
immediately; in app.js exactly one reply cycle starts unless the engine
is already Composing (then none — the typing indicator is appended only
when `isBotTyping` was false); in part_001 a reply cycle always starts,
even while one is already composing, because `simulateBotReply` has no
guard (see the counterexample). -/
theorem user_send_spec (rawE rawN : String) (pick now : Nat) (s : AppState) (sB : BState)
    (hE : jsTrim rawE = "") (hN : jsTrim rawN ≠ "") :
    handleUserSend rawE pick now s = s ∧
    (handleUserSend rawN pick now s).history =
      s.history ++ [HistEntry.mk Role.user (jsTrim rawN) now] ∧
    (handleUserSend rawN pick now s).chat =
      s.chat ++ ChatItem.message Role.user (jsTrim rawN) ::
        (if s.isBotTyping then [] else [ChatItem.typing]) ∧
    (handleUserSend rawN pick now s).isBotTyping = true ∧
    submitB rawE sB = sB ∧
    (submitB rawN sB).display =
      sB.display ++ [ChatItem.message Role.user (jsTrim rawN), ChatItem.typing] := by
  obtain ⟨h1, h2, h3⟩ := handleUserSend_nonempty rawN pick now s hN
  exact ⟨handleUserSend_empty rawE pick now s hE, h1, h2, h3,
    submitB_empty rawE sB hE, by simp [submitB, hN]⟩

/-- Witness for C5 (amended) at a concrete empty and non-empty input. -/
theorem user_send_spec_witness :
    handleUserSend "  " 0 7 initA = initA ∧
    (handleUserSend "สวัสดี" 0 7 initA).history =
      initA.history ++ [HistEntry.mk Role.user (jsTrim "สวัสดี") 7] ∧
    (handleUserSend "สวัสดี" 0 7 initA).chat =
      initA.chat ++ ChatItem.message Role.user (jsTrim "สวัสดี") ::
        (if initA.isBotTyping then [] else [ChatItem.typing]) ∧
    (handleUserSend "สวัสดี" 0 7 initA).isBotTyping = true ∧
    submitB "  " initB = initB ∧
    (submitB "สวัสดี" initB).display =
      initB.display ++ [ChatItem.message Role.user (jsTrim "สวัสดี"), ChatItem.typing] :=
  user_send_spec "  " "สวัสดี" 0 7 initA initB (by decide) (by decide)

/-- Counterexample to claim C5 as stated: in part_001, a non-empty
submit issued while a reply cycle is composing (a typing indicator is
pending) starts another cycle — one more typing indicator appears,
where the claim requires zero new cycles. -/
theorem part001_cycle_starts_while_composing :
    countTyping ((submitB "ทดสอบ" (bootB none).1).display) = 1 ∧
    countTyping ((submitB "ขอบคุณ" (submitB "ทดสอบ" (bootB none).1)).display) = 2 := by
  constructor <;> decide

/-- Claim C6: an input whose lower-cased trimmed text contains a pricing
keyword (`'ราคา'` or `'เท่าไหร่'`) always makes `handleUserSend` select
the fixed pricing reply as the pending reply of the cycle it starts —
never a later category's reply and never a random fallback — and in
particular the theme side effect of the later theme category does not
run. -/
theorem pricing_keyword_priority (raw : String) (pick now : Nat) (s : AppState)
    (hN : jsTrim raw ≠ "") (hs : s.isBotTyping = false)
    (hkw : (jsIncludes (jsToLower (jsTrim raw)) "ราคา" ||
            jsIncludes (jsToLower (jsTrim raw)) "เท่าไหร่") = true) :
    (handleUserSend raw pick now s).pending = some pricingReply ∧
    (handleUserSend raw pick now s).theme = s.theme := by
  simp only [handleUserSend, if_neg hN, hkw, if_pos]
  constructor
  · rw [botReplyStartA_pending]
    exact hs
  · rw [botReplyStartA_theme]

/-- Witness for C6 at the concrete input `'ราคาเท่าไหร่'`. -/
theorem pricing_keyword_priority_witness :
    (handleUserSend "ราคาเท่าไหร่" 2 9 initA).pending = some pricingReply ∧
    (handleUserSend "ราคาเท่าไหร่" 2 9 initA).theme = initA.theme :=
  pricing_keyword_priority "ราคาเท่าไหร่" 2 9 initA (by decide) (by decide) (by decide)

lemma removeLastTyping_concat (l : List ChatItem) :
    removeLastTyping (l ++ [ChatItem.typing]) = l := by
  simp [removeLastTyping, List.reverse_append, removeFirstTyping]

lemma botReplyFullA_run (text : String) (s : AppState) (h : s.isBotTyping = false) :
    botReplyFullA text s =
      { s with pending := none, chat := s.chat ++ [ChatItem.message Role.bot text] } := by
  simp [botReplyFullA, h, botReplyStartA, botReplyFinishA, removeLastTyping_concat]

lemma playScriptA_run (steps : List Turn) :
    ∀ s : AppState, s.isBotTyping = false →
      (playScriptA steps s).chat =
        s.chat ++ steps.map (fun st => ChatItem.message st.role st.text) ∧
      (playScriptA steps s).history = s.history ∧
      (playScriptA steps s).isBotTyping = false ∧
      (playScriptA steps s).theme = s.theme ∧
      (playScriptA steps s).store = s.store := by
  induction steps with
  | nil =>
    intro s h
    exact ⟨by simp [playScriptA], rfl, h, rfl, rfl⟩
  | cons step rest ih =>
    intro s h
    obtain ⟨role, t⟩ := step
    cases role with
    | user =>
      obtain ⟨h1, h2, h3, h4, h5⟩ := ih (appendMessageS Role.user t s) h
      have hred : playScriptA (Turn.mk Role.user t :: rest) s =
          playScriptA rest (appendMessageS Role.user t s) := rfl
      rw [hred, h1, h2, h4, h5]
      refine ⟨?_, rfl, h3, rfl, rfl⟩
      simp [appendMessageS]
    | bot =>
      have hb : (botReplyFullA t s).isBotTyping = false := by
        rw [botReplyFullA_run t s h]
        exact h
      obtain ⟨h1, h2, h3, h4, h5⟩ := ih (botReplyFullA t s) hb
      have hred : playScriptA (Turn.mk Role.bot t :: rest) s =
          playScriptA rest (botReplyFullA t s) := rfl
      rw [hred, h1, h2, h4, h5, botReplyFullA_run t s h]
      rw [botReplyFullA_run t s h] at h3
      exact ⟨by simp, rfl, h3, rfl, rfl⟩

lemma playTraceA_last (steps : List Turn) :
    ∀ c : List ChatItem,
      (playTraceA steps c).getLastD c =
        c ++ steps.map (fun st => ChatItem.message st.role st.text) := by
  induction steps with
  | nil => intro c; simp [playTraceA]
  | cons step rest ih =>
    intro c
    obtain ⟨role, t⟩ := step
    cases role with
    | user =>
      show ((c ++ [ChatItem.message Role.user t]) ::
        playTraceA rest (c ++ [ChatItem.message Role.user t])).getLastD c = _
      rw [List.getLastD_cons, ih]
      simp
    | bot =>
      show ((c ++ [ChatItem.typing]) :: c :: (c ++ [ChatItem.message Role.bot t]) ::
        playTraceA rest (c ++ [ChatItem.message Role.bot t])).getLastD c = _
      rw [List.getLastD_cons, List.getLastD_cons, List.getLastD_cons, ih]
      simp

lemma msgsOf_concat_typing (l : List ChatItem) :
    msgsOf (l ++ [ChatItem.typing]) = msgsOf l := by
  simp [msgsOf, isMsg]

lemma msgsOf_concat_msg (l : List ChatItem) (r : Role) (t : String) :
    msgsOf (l ++ [ChatItem.message r t]) = msgsOf l ++ [ChatItem.message r t] := by
  simp [msgsOf, isMsg]

lemma msgsOf_concat_msg_ne (l : List ChatItem) (r : Role) (t : String) :
    ¬ msgsOf (l ++ [ChatItem.message r t]) = msgsOf l := by
  rw [msgsOf_concat_msg]
  intro hh
  have := congrArg List.length hh
  simp at this

lemma lastMsg_concat_msg (l : List ChatItem) (r : Role) (t : String) :
    lastMsg (l ++ [ChatItem.message r t]) = some (ChatItem.message r t) := by
  simp [lastMsg, msgsOf_concat_msg, lastItem, List.reverse_append]

lemma endsTyping_concat_typing (l : List ChatItem) :
    endsTyping (l ++ [ChatItem.typing]) = true := by
  simp [endsTyping, lastItem, List.reverse_append]

lemma botMsgGuarded_trace (steps : List Turn) :
    ∀ (c : List ChatItem) (seen : Bool),
      botMsgGuarded seen c (playTraceA steps c) = true := by
  induction steps with
  | nil => intro c seen; rfl
  | cons step rest ih =>
    intro c seen
    obtain ⟨role, t⟩ := step
    cases role with
    | user =>
      show botMsgGuarded seen c ((c ++ [ChatItem.message Role.user t]) ::
        playTraceA rest (c ++ [ChatItem.message Role.user t])) = true
      rw [botMsgGuarded]
      rw [if_neg (msgsOf_concat_msg_ne c Role.user t)]
      rw [lastMsg_concat_msg]
      simp only [isBotMsg, if_neg]
      exact ih (c ++ [ChatItem.message Role.user t]) false
    | bot =>
      show botMsgGuarded seen c ((c ++ [ChatItem.typing]) :: c ::
        (c ++ [ChatItem.message Role.bot t]) ::
        playTraceA rest (c ++ [ChatItem.message Role.bot t])) = true
      rw [botMsgGuarded, if_pos (msgsOf_concat_typing c)]
      rw [endsTyping_concat_typing]
      rw [botMsgGuarded, if_pos (msgsOf_concat_typing c).symm]
      rw [botMsgGuarded, if_neg (msgsOf_concat_msg_ne c Role.bot t)]
      rw [lastMsg_concat_msg]
      simp only [isBotMsg, Bool.or_true, Bool.true_or, Bool.true_and]
      exact ih (c ++ [ChatItem.message Role.bot t]) false

/-- Claim C4 (amended): triggering playback of a script with N turns
from any engine state that is not Composing appends exactly the N
declared messages, in declared order and with declared roles, leaving
history, theme and store untouched; along the resulting display trace,
every bot message is preceded — since the previous message change — by a
moment at which a typing indicator is the most recent visual element.
From a Composing state, the `botReply` guard drops every bot turn, so
only the user turns are appended (see the counterexample). -/
theorem scripted_playback (steps : List Turn) (s : AppState) (h : s.isBotTyping = false) :
    (playScriptA steps s).chat =
      s.chat ++ steps.map (fun st => ChatItem.message st.role st.text) ∧
    (playScriptA steps s).chat.length = s.chat.length + steps.length ∧
    (playScriptA steps s).history = s.history ∧
    (playScriptA steps s).isBotTyping = false ∧
    (playScriptA steps s).theme = s.theme ∧
    (playScriptA steps s).store = s.store ∧
    (playTraceA steps s.chat).getLastD s.chat = (playScriptA steps s).chat ∧
    botMsgGuarded false s.chat (playTraceA steps s.chat) = true := by
  obtain ⟨h1, h2, h3, h4, h5⟩ := playScriptA_run steps s h
  refine ⟨h1, ?_, h2, h3, h4, h5, ?_, botMsgGuarded_trace steps s.chat false⟩
  · rw [h1]; simp
  · rw [playTraceA_last steps s.chat, h1]

/-- Witness for C4 (amended): playback of the three-turn `intro` script
from the freshly booted app.js state. -/
theorem scripted_playback_witness :
    (playScriptA introScript initA).chat =
      initA.chat ++ introScript.map (fun st => ChatItem.message st.role st.text) ∧
    (playScriptA introScript initA).chat.length = initA.chat.length + introScript.length ∧
    (playScriptA introScript initA).history = initA.history ∧
    (playScriptA introScript initA).isBotTyping = false ∧
    (playScriptA introScript initA).theme = initA.theme ∧
    (playScriptA introScript initA).store = initA.store ∧
    (playTraceA introScript initA.chat).getLastD initA.chat =
      (playScriptA introScript initA).chat ∧
    botMsgGuarded false initA.chat (playTraceA introScript initA.chat) = true :=
  scripted_playback introScript initA rfl

/-- Counterexample to claim C4 as stated: from a Composing state
(reachable by starting a `botReply` cycle), playback of the three-turn
`intro` script appends only one message — the single user turn — because
the `botReply` guard drops both bot turns. -/
theorem scripted_playback_composing_drops_bot_turns :
    (botReplyStartA "รอ" initA).isBotTyping = true ∧
    introScript.length = 3 ∧
    (playScriptA introScript (botReplyStartA "รอ" initA)).chat.length =
      (botReplyStartA "รอ" initA).chat.length + 1 ∧
    msgsOf (playScriptA introScript (botReplyStartA "รอ" initA)).chat =
      msgsOf (botReplyStartA "รอ" initA).chat ++
        [ChatItem.message Role.user "อยากรู้ว่าฟีเจอร์มีอะไรบ้าง"] := by
  refine ⟨rfl, rfl, ?_, ?_⟩ <;> decide

/- ------------------------------------------------------------------
Claim C10: the stored message history never contains a bot entry.
------------------------------------------------------------------ -/

lemma handleUserSend_history_cases (raw : String) (pick now : Nat) (s : AppState) :
    (handleUserSend raw pick now s).history = s.history ∨
    (handleUserSend raw pick now s).history =
      s.history ++ [HistEntry.mk Role.user (jsTrim raw) now] := by
  by_cases hE : jsTrim raw = ""
  · left
    rw [handleUserSend_empty raw pick now s hE]
  · right
    exact (handleUserSend_nonempty raw pick now s hE).1

lemma botReplyFullA_history (text : String) (s : AppState) :
    (botReplyFullA text s).history = s.history := by
  by_cases h : s.isBotTyping
  · simp [botReplyFullA, h]
  · rw [botReplyFullA_run text s (by simp [h])]

lemma playScriptA_history (steps : List Turn) :
    ∀ s : AppState, (playScriptA steps s).history = s.history := by
  induction steps with
  | nil => intro s; rfl
  | cons step rest ih =>
    intro s
    obtain ⟨role, t⟩ := step
    cases role with
    | user =>
      have hred : playScriptA (Turn.mk Role.user t :: rest) s =
          playScriptA rest (appendMessageS Role.user t s) := rfl
      rw [hred, ih]
      rfl
    | bot =>
      have hred : playScriptA (Turn.mk Role.bot t :: rest) s =
          playScriptA rest (botReplyFullA t s) := rfl
      rw [hred, ih, botReplyFullA_history]

lemma stepA_history_roles (s : AppState) (e : AEvent)
    (hs : ∀ m ∈ s.history, m.role = Role.user) :
    ∀ m ∈ (stepA s e).history, m.role = Role.user := by
  cases e with
  | send raw pick now =>
    intro m hm
    rcases handleUserSend_history_cases raw pick now s with h | h
    · exact hs m (by rwa [stepA, h] at hm)
    · rw [stepA, h] at hm
      rcases List.mem_append.mp hm with hm | hm
      · exact hs m hm
      · rw [List.mem_singleton.mp hm]
  | finish =>
    intro m hm
    exact hs m (by rwa [stepA, botReplyFinishA_history] at hm)
  | themeToggle =>
    intro m hm
    exact hs m (by rwa [stepA, toggleThemeS_history] at hm)
  | script key =>
    intro m hm
    exact hs m (by rwa [stepA, playScriptA_history] at hm)

lemma runA_history_roles (evs : List AEvent) :
    ∀ s : AppState, (∀ m ∈ s.history, m.role = Role.user) →
      ∀ m ∈ (runA s evs).history, m.role = Role.user := by
  induction evs with
  | nil => intro s hs; exact hs
  | cons e rest ih => intro s hs; exact ih (stepA s e) (stepA_history_roles s e hs)

lemma submitB_messages (raw : String) (s : BState) :
    (submitB raw s).messages = s.messages := by
  by_cases hE : jsTrim raw = "" <;> simp [submitB, hE]

lemma stepB_messages (p : BState × StoreState) (e : BEvent) (h : p.1.messages = []) :
    (stepB p e).1.messages = [] := by
  cases e with
  | submit raw => rw [stepB, submitB_messages]; exact h
  | finish t => exact h
  | themeSet light => exact h
  | presetClick pr => exact h
  | reset => rfl

lemma runB_messages (evs : List BEvent) :
    ∀ p : BState × StoreState, p.1.messages = [] → (runB p evs).1.messages = [] := by
  induction evs with
  | nil => intro p h; exact h
  | cons e rest ih => intro p h; exact ih (stepB p e) (stepB_messages p e h)

/-- Claim C10: under every sequence of user-interface events, the stored
message history contains no bot entry — in app.js only `handleUserSend`
pushes onto `state.history` and it pushes user records only, while
`botReply` and playback never touch it; in part_001 nothing ever appends
to `state.messages`, so from its initial empty value it stays empty. -/
theorem history_has_no_bot_entry (evs : List AEvent) (evsB : List BEvent) (s : AppState)
    (p : BState × StoreState)
    (hs : ∀ m ∈ s.history, m.role = Role.user) (hp : p.1.messages = []) :
    (∀ m ∈ (runA s evs).history, m.role = Role.user) ∧
    (runB p evsB).1.messages = [] ∧
    (∀ m ∈ (runA initA evs).history, m.role = Role.user) ∧
    (runB (bootB none) evsB).1.messages = [] := by
  refine ⟨runA_history_roles evs s hs, runB_messages evsB p hp, ?_, ?_⟩
  · exact runA_history_roles evs initA (by intro m hm; simp [initA] at hm)
  · exact runB_messages evsB (bootB none) rfl

/-- Witness for C10 at a concrete event sequence: after a send, a script
playback and a reply completion, the single history entry has the user
role, and part_001's stored history is still empty after a submit and a
reset. -/
theorem history_has_no_bot_entry_witness :
    (HistEntry.mk Role.user "สวัสดี" 5).role = Role.user ∧
    (runB ((initB, none)) [BEvent.submit "ทดลอง", BEvent.reset]).1.messages = [] := by
  constructor
  · exact (history_has_no_bot_entry
      [AEvent.send "สวัสดี" 0 5, AEvent.script "intro", AEvent.finish] [] initA (initB, none)
      (by decide) rfl).2.2.1 (HistEntry.mk Role.user "สวัสดี" 5) (by decide)
  · exact (history_has_no_bot_entry [] [BEvent.submit "ทดลอง", BEvent.reset] initA
      (initB, none) (by decide) rfl).2.1
